import Mathlib

/-!
Verification of the cat-planner bot (src/bot.py) against its design
specification.  The Python source is shallowly embedded below: dates and
times are records of naturals, SQLite tables are lists of row records, the
conversational intake buffer (`context.user_data`) is a record of optional
fields, and each handler becomes a pure function from its inputs and the
relevant state to the successor state plus an outcome (next conversation
stage, end-of-conversation, or a raised exception).
-/

namespace CatPlanner

/-- A calendar date, as held by Python `datetime.date` and by the SQLite
`DATE` columns (stored in `YYYY-MM-DD` form). -/
structure Date where
  year : Nat
  month : Nat
  day : Nat
deriving DecidableEq, Repr

/-- A time of day, as held by Python `datetime.time` and by the SQLite
`TIME` columns (stored in `HH:MM:SS` form). -/
structure Time where
  hour : Nat
  minute : Nat
  second : Nat
deriving DecidableEq, Repr

/-- The decimal digit character for `n % 10 ≤ 9`. -/
def digitChar (n : Nat) : Char := Char.ofNat (48 + n)

/-- Leap-year rule of the Gregorian calendar, as implemented by Python
`datetime` when it validates a parsed date. -/
def isLeap (y : Nat) : Bool := (y % 4 = 0 && y % 100 ≠ 0) || y % 400 = 0

/-- Number of days in a month, as enforced by Python `datetime.date`. -/
def daysInMonth (y m : Nat) : Nat :=
  if m = 2 then (if isLeap y then 29 else 28)
  else if m = 4 ∨ m = 6 ∨ m = 9 ∨ m = 11 then 30
  else 31

/-- A date whose fields `datetime.date` would accept.  Every date stored by
the bot is produced by `datetime.date`, hence valid in this sense. -/
def validDate (d : Date) : Prop :=
  1 ≤ d.month ∧ d.month ≤ 12 ∧ 1 ≤ d.day ∧ d.day ≤ daysInMonth d.year d.month

instance (d : Date) : Decidable (validDate d) := by
  unfold validDate; infer_instance

/-- `strftime("%m-%d", date)`: the zero-padded month and day joined by a
dash.  This is the string SQLite computes on both sides of the birthday
recurrence comparison used in `quick_schedule`, `morning_reminder`,
`birthday_reminder`, `today`, `week` and `birthdays` (src/bot.py lines
609, 664, 716, 887, 939, 1008). -/
def strftimeMD (d : Date) : String :=
  String.mk [digitChar (d.month / 10), digitChar (d.month % 10), '-',
             digitChar (d.day / 10), digitChar (d.day % 10)]

/-- `strftime("%H:%M", time)`: the zero-padded hour and minute joined by a
colon, as computed in `morning_reminder` (line 651) and when a stored
`HH:MM:SS` value is re-rendered for display (lines 625, 684, 905, 951, 982). -/
def strftimeHM (t : Time) : String :=
  String.mk [digitChar (t.hour / 10), digitChar (t.hour % 10), ':',
             digitChar (t.minute / 10), digitChar (t.minute % 10)]

/-- `strftime("%d.%m.%Y", date)`: the user-facing date format (four-digit
years suffice for all dates `datetime.date` accepts in this bot). -/
def strftimeDMY (d : Date) : String :=
  String.mk [digitChar (d.day / 10), digitChar (d.day % 10), '.',
             digitChar (d.month / 10), digitChar (d.month % 10), '.',
             digitChar (d.year / 1000 % 10), digitChar (d.year / 100 % 10),
             digitChar (d.year / 10 % 10), digitChar (d.year % 10)]

/-- Python `str.lower` restricted to the alphabets this bot meets: ASCII
letters and the Cyrillic block (including Ё/Є/І/Ї and Ґ). -/
def pyLowerChar (c : Char) : Char :=
  if 65 ≤ c.toNat ∧ c.toNat ≤ 90 then Char.ofNat (c.toNat + 32)
  else if 0x400 ≤ c.toNat ∧ c.toNat ≤ 0x40F then Char.ofNat (c.toNat + 0x50)
  else if 0x410 ≤ c.toNat ∧ c.toNat ≤ 0x42F then Char.ofNat (c.toNat + 0x20)
  else if c.toNat = 0x490 then Char.ofNat 0x491
  else c

/-- Python `str.lower` on a whole string. -/
def pyLower (s : String) : String := String.mk (s.data.map pyLowerChar)

/-- Splitting a character list at every occurrence of `sep` (helper for
`splitOnChar`). -/
def splitOnCharAux (sep : Char) : List Char → List Char → List (List Char)
  | [], acc => [acc.reverse]
  | c :: cs, acc =>
    if c = sep then acc.reverse :: splitOnCharAux sep cs []
    else splitOnCharAux sep cs (c :: acc)

/-- Splitting a string at every occurrence of a one-character separator,
as Python `str.split(sep)` does for the separators "." and ":" used by the
bot's `strptime` formats. -/
def splitOnChar (sep : Char) (s : String) : List String :=
  (splitOnCharAux sep s.data []).map String.mk

/-- Python `str.strip()`: drop leading and trailing whitespace. -/
def pyStrip (s : String) : String :=
  String.mk (((s.data.dropWhile Char.isWhitespace).reverse.dropWhile
      Char.isWhitespace).reverse)

/-- True when `s` is a non-empty string of decimal digits. -/
def allDigits (s : String) : Bool := !s.data.isEmpty && s.data.all Char.isDigit

/-- The numeric value of a digit string (most significant digit first). -/
def natOfDigits (s : String) : Nat :=
  s.data.foldl (fun a c => 10 * a + (c.toNat - 48)) 0

/-- Python `datetime.strptime(s, "%d.%m.%Y").date()` as an `Option`:
`%d` and `%m` each consume one or two digits with the indicated ranges,
`%Y` consumes exactly four digits, the literal dots must appear, the whole
string must be consumed, and `datetime.date` then validates the triple
(day within the month, month 1..12, year at least 1).  A `ValueError`
becomes `none`. -/
def parseDMY (s : String) : Option Date :=
  match splitOnChar '.' s with
  | [ds, ms, ys] =>
    if allDigits ds ∧ ds.length ≤ 2 ∧ allDigits ms ∧ ms.length ≤ 2 ∧
       allDigits ys ∧ ys.length = 4 then
      let d := natOfDigits ds
      let m := natOfDigits ms
      let y := natOfDigits ys
      if 1 ≤ y ∧ 1 ≤ m ∧ m ≤ 12 ∧ 1 ≤ d ∧ d ≤ daysInMonth y m then
        some ⟨y, m, d⟩
      else none
    else none
  | _ => none

/-- Python `datetime.strptime(s, "%H:%M").time()` as an `Option`: `%H` and
`%M` each consume one or two digits, hour 0..23, minute 0..59, seconds set
to zero.  A `ValueError` becomes `none`. -/
def parseHM (s : String) : Option Time :=
  match splitOnChar ':' s with
  | [hs, ms] =>
    if allDigits hs ∧ hs.length ≤ 2 ∧ allDigits ms ∧ ms.length ≤ 2 then
      let h := natOfDigits hs
      let m := natOfDigits ms
      if h ≤ 23 ∧ m ≤ 59 then some ⟨h, m, 0⟩ else none
    else none
  | _ => none

/-- A row of the `users` table (src/bot.py lines 58-67). -/
structure UserRow where
  user_id : Nat
  first_name : String
  username : Option String
  timezone : String
  morning_time : String
deriving DecidableEq, Repr

/-- A row of the `events` table (src/bot.py lines 70-81); `event_time` is
`none` for an all-day event (stored SQL `NULL`). -/
structure EventRow where
  user_id : Nat
  title : String
  description : Option String
  event_date : Date
  event_time : Option Time
deriving DecidableEq, Repr

/-- A row of the `birthdays` table (src/bot.py lines 84-93). -/
structure BirthdayRow where
  user_id : Nat
  name : String
  birth_date : Date
deriving DecidableEq, Repr

/-- The birthday recurrence match used by every birthday query:
`strftime("%m-%d", birth_date) = strftime("%m-%d", today)` (src/bot.py
lines 609, 664, 716, 887, 939, 1008). -/
def birthdayMatches (birth today : Date) : Bool :=
  decide (strftimeMD birth = strftimeMD today)

/-- The rows returned by
`SELECT ... FROM birthdays WHERE strftime("%m-%d", birth_date) = strftime("%m-%d", ?)`.
Note the query has no `user_id` condition in the source. -/
def birthdaysOn (db : List BirthdayRow) (d : Date) : List BirthdayRow :=
  db.filter (fun r => birthdayMatches r.birth_date d)

/-- Sort key used by `ORDER BY event_time` on the stored `HH:MM:SS`
strings: SQL `NULL` (all-day) sorts first, then ascending time. -/
def timeKey : Option Time → Nat
  | none => 0
  | some t => 1 + (t.hour * 3600 + t.minute * 60 + t.second)

/-- Insert one event into a list sorted by `timeKey` (helper for
`sortEvents`). -/
def insertByTime (e : EventRow) : List EventRow → List EventRow
  | [] => [e]
  | x :: xs =>
    if timeKey e.event_time < timeKey x.event_time then e :: x :: xs
    else x :: insertByTime e xs

/-- The `ORDER BY event_time` ordering of an event list. -/
def sortEvents : List EventRow → List EventRow
  | [] => []
  | x :: xs => insertByTime x (sortEvents xs)

/-- The rows returned by
`SELECT ... FROM events WHERE user_id = ? AND event_date = ? ORDER BY event_time`
(src/bot.py lines 604, 659, 882, 934). -/
def eventsOn (uid : Nat) (db : List EventRow) (d : Date) : List EventRow :=
  sortEvents (db.filter (fun e => decide (e.user_id = uid ∧ e.event_date = d)))

/-- The payload the `today` handler assembles for the requesting user
(src/bot.py lines 871-913): that user's events dated today, and the
birthday rows whose month/day match today (unfiltered by user). -/
def todayView (uid : Nat) (events : List EventRow) (bdays : List BirthdayRow)
    (d : Date) : List EventRow × List BirthdayRow :=
  (eventsOn uid events d, birthdaysOn bdays d)

/-- One event line of a schedule message (src/bot.py lines 904-906): the
stored `HH:MM:SS` time re-rendered as `HH:MM`, or the all-day label, then
a dash and the title. -/
def formatEventLine (e : EventRow) : String :=
  (match e.event_time with
   | some t => strftimeHM t
   | none => "Весь день") ++ " - " ++ e.title ++ "\n"

/-- The age rendered next to a matched birthday in the `today`, morning,
midnight and 30-day-lookahead outputs (src/bot.py lines 678, 733, 898,
1026): plain year difference, no decrement. -/
def viewAge (birth refDate : Date) : Int :=
  (refDate.year : Int) - (birth.year : Int)

/-- Python tuple comparison `(a1, a2) < (b1, b2)` on pairs of naturals
(lexicographic). -/
def pyPairLt (a b : Nat × Nat) : Bool :=
  a.1 < b.1 || (a.1 == b.1 && a.2 < b.2)

/-- The age computed in `save_birthday` (src/bot.py lines 844-847):
year difference, decremented when today's month/day precedes the
birthday's month/day. -/
def saveBirthdayAge (birth today : Date) : Int :=
  let age : Int := (today.year : Int) - (birth.year : Int)
  if pyPairLt (today.month, today.day) (birth.month, birth.day) then age - 1
  else age

/-- The age formula as the specification states it (`computeAge` of
spec section 4.1), written from the spec to compare with the source. -/
def specAge (birth asOf : Date) : Int :=
  if pyPairLt (asOf.month, asOf.day) (birth.month, birth.day) then
    (asOf.year : Int) - (birth.year : Int) - 1
  else (asOf.year : Int) - (birth.year : Int)

/-- The midnight gate of `birthday_reminder` (src/bot.py line 710):
`current_time.hour == 0 and current_time.minute < 5`. -/
def midnightGate (t : Time) : Bool :=
  decide (t.hour = 0) && decide (t.minute < 5)

/-- The user selection of `morning_reminder` (src/bot.py lines 648-652):
`SELECT user_id FROM users WHERE morning_time = ? AND morning_time != 'disabled'`
with the current wall-clock time formatted as `HH:MM`. -/
def morningSelect : List UserRow → Time → List Nat
  | [], _ => []
  | u :: us, now =>
    if u.morning_time = strftimeHM now ∧ u.morning_time ≠ "disabled" then
      u.user_id :: morningSelect us now
    else morningSelect us now

/-- One birthday line of the morning message (src/bot.py lines 676-679). -/
def birthdayLine (r : BirthdayRow) (refDate : Date) : String :=
  "🎉 " ++ r.name ++ " (" ++ toString (viewAge r.birth_date refDate) ++ " років)\n"

/-- The morning message assembled for one user (src/bot.py lines 656-690):
today's matched birthdays (all users') and the user's own events today. -/
def morningMessage (uid : Nat) (events : List EventRow)
    (bdays : List BirthdayRow) (today : Date) : String :=
  let evs := eventsOn uid events today
  let bds := birthdaysOn bdays today
  let m1 := "\n⏰ Доброго ранку!\n\n📅 План на сьогодні ("
            ++ strftimeDMY today ++ "):\n"
  let m2 := if bds.isEmpty then m1
            else m1 ++ "\n🎂 Дні народження:\n"
                 ++ String.join (bds.map (fun b => birthdayLine b today))
  let m3 := if evs.isEmpty then m2
            else m2 ++ "\n🙀 Твої події:\n"
                 ++ String.join (evs.map (fun e => "• " ++ formatEventLine e))
  let m4 := if evs.isEmpty ∧ bds.isEmpty then
              m3 ++ "\n😴 Сьогодні вільний день! Можна відпочити"
            else m3
  m4 ++ "\n😻 Гарного дня!"

/-- One tick of `morning_reminder` (src/bot.py lines 641-703): the list of
(recipient, message) sends attempted this tick. -/
def morningRun (users : List UserRow) (events : List EventRow)
    (bdays : List BirthdayRow) (now : Time) (today : Date) :
    List (Nat × String) :=
  (morningSelect users now).map
    (fun uid => (uid, morningMessage uid events bdays today))

/-- The midnight broadcast message (src/bot.py lines 725-736). -/
def midnightMessage (bds : List BirthdayRow) (today : Date) : String :=
  "\n🎂 УВАГА! Сьогодні день народження!\n\n🎉 Іменинники:\n"
  ++ String.join (bds.map (fun b =>
       "🎂 " ++ b.name ++ " (" ++ toString (viewAge b.birth_date today)
       ++ " років)\n"))
  ++ "\n😻 Не забудь привітати!"

/-- One tick of `birthday_reminder` (src/bot.py lines 705-750): inside the
midnight gate, if any birthday matches today, every user receives the same
broadcast message. -/
def midnightRun (users : List UserRow) (bdays : List BirthdayRow)
    (now : Time) (today : Date) : List (Nat × String) :=
  if midnightGate now then
    let bds := birthdaysOn bdays today
    if bds.isEmpty then []
    else (users.map (fun u => u.user_id)).map
      (fun uid => (uid, midnightMessage bds today))
  else []

/-- The per-recipient send loop with its `try`/`except` body (src/bot.py
lines 656-701 and 740-748): recipients whose delivery raises are logged
(second component) and the loop continues; the rest are delivered (first
component). -/
def dispatchBatch : List Nat → (Nat → Bool) → List Nat × List Nat
  | [], _ => ([], [])
  | r :: rs, failing =>
    let rest := dispatchBatch rs failing
    if failing r then (rest.1, r :: rest.2)
    else (r :: rest.1, rest.2)

/-- The conversation stages of the two intake flows (src/bot.py lines
30-31). -/
inductive Stage where
  | addingEventName
  | addingEventDate
  | addingEventTime
  | addingEventDesc
  | addingBirthdayName
  | addingBirthdayDate
deriving DecidableEq, Repr

/-- What a conversation handler invocation produces: the next stage it
returns, `ConversationHandler.END`, or an uncaught Python exception. -/
inductive Outcome where
  | next (s : Stage)
  | ended
  | raised (msg : String)
deriving DecidableEq, Repr

/-- The per-conversation intake buffer `context.user_data` with the keys
the two intake flows write; a `none` field is an absent key.  For
`event_time` the inner `Option` is the stored value itself (`None` for an
all-day event, src/bot.py line 316). -/
structure UserData where
  event_name : Option String
  event_date : Option Date
  event_time : Option (Option Time)
  birthday_name : Option String
deriving DecidableEq, Repr

/-- The empty intake buffer (after `context.user_data.clear()`). -/
def emptyUserData : UserData := ⟨none, none, none, none⟩

/-- `today + timedelta(days=1)` (src/bot.py line 296). -/
def nextDay (d : Date) : Date :=
  if d.day < daysInMonth d.year d.month then ⟨d.year, d.month, d.day + 1⟩
  else if d.month < 12 then ⟨d.year, d.month + 1, 1⟩
  else ⟨d.year + 1, 1, 1⟩

/-- The `get_event_date` handler (src/bot.py lines 288-309): lowercase and
strip the text; accept the two keywords or a `DD.MM.YYYY` date, storing it
in the buffer and advancing to the time stage; on a `ValueError` from
`strptime`, re-prompt and stay in the date stage.  The handler touches no
database. -/
def getEventDate (text : String) (today : Date) (ud : UserData)
    (db : List EventRow) : Outcome × UserData × List EventRow :=
  let dateText := pyStrip (pyLower text)
  if dateText = "сьогодні" then
    (.next .addingEventTime, { ud with event_date := some today }, db)
  else if dateText = "завтра" then
    (.next .addingEventTime, { ud with event_date := some (nextDay today) }, db)
  else
    match parseDMY dateText with
    | some ed => (.next .addingEventTime, { ud with event_date := some ed }, db)
    | none => (.next .addingEventDate, ud, db)

/-- The `get_event_time` handler (src/bot.py lines 311-328): lowercase and
strip the text; accept the all-day keyword (storing `None`) or an `HH:MM`
time, advancing to the description stage; on a `ValueError`, re-prompt and
stay in the time stage.  The handler touches no database. -/
def getEventTime (text : String) (ud : UserData) (db : List EventRow) :
    Outcome × UserData × List EventRow :=
  let timeText := pyStrip (pyLower text)
  if timeText = "весь день" then
    (.next .addingEventDesc, { ud with event_time := some none }, db)
  else
    match parseHM timeText with
    | some t => (.next .addingEventDesc, { ud with event_time := some (some t) }, db)
    | none => (.next .addingEventTime, ud, db)

/-- The description value computed at the top of `save_event` (src/bot.py
lines 332-334): the stripped text, or `None` when it reads `пропустити`
case-insensitively. -/
def pyDescription (text : String) : Option String :=
  let s := pyStrip text
  if pyLower s = "пропустити" then none else some s

/-- The local variables assigned anywhere in the body of `save_event`
(src/bot.py lines 330-364), in order of first assignment.  `keyboard` is
not among them, and no module-level `keyboard` exists, so the
`reply_text(message, reply_markup=keyboard)` call at line 364 raises
`NameError`. -/
def saveEventLocals : List String :=
  ["description", "user_id", "conn", "cursor", "event_date", "event_time",
   "time_str", "message"]

/-- The `save_event` handler (src/bot.py lines 330-364): compute the
description, read the three buffered fields (a missing key raises
`KeyError` before the insert executes), then run the INSERT.  Python's
`sqlite3` ships default adapters only for `datetime.date` and
`datetime.datetime`; the buffered `event_time` is a `datetime.time`
object whenever the user entered a time (line 319), so for a timed event
`cursor.execute` raises a parameter-binding error before any row is
inserted.  For an all-day event (`event_time` is `None`, which binds as
SQL `NULL`) the row is inserted and committed, and the confirmation reply
then refers to the name `keyboard`; since that name is never assigned,
the reply raises `NameError`.  On every path the handler neither clears
the buffer nor returns `ConversationHandler.END`. -/
def saveEvent (text : String) (uid : Nat) (ud : UserData)
    (db : List EventRow) : Outcome × UserData × List EventRow :=
  let description := pyDescription text
  match ud.event_name, ud.event_date, ud.event_time with
  | some nm, some ed, some et =>
    match et with
    | some _ =>
      (.raised "InterfaceError: no sqlite3 adapter for datetime.time", ud, db)
    | none =>
      let db := db ++ [⟨uid, nm, description, ed, none⟩]
      (if saveEventLocals.contains "keyboard" then .next .addingEventDesc
       else .raised "NameError: name keyboard is not defined", ud, db)
  | _, _, _ => (.raised "KeyError", ud, db)

/-- The `save_birthday` handler (src/bot.py lines 828-867): strip the
text and parse it as `DD.MM.YYYY`; on success insert the birthday row,
commit, reply with the confirmation (including `saveBirthdayAge`), clear
the buffer and end the conversation; on a `ValueError` from `strptime`,
re-prompt and stay in the date stage with nothing inserted.  A missing
`birthday_name` key would raise `KeyError` before the insert executes. -/
def saveBirthday (text : String) (uid : Nat) (ud : UserData)
    (db : List BirthdayRow) : Outcome × UserData × List BirthdayRow :=
  let dateText := pyStrip text
  match parseDMY dateText with
  | some bd =>
    match ud.birthday_name with
    | some nm => (.ended, emptyUserData, db ++ [⟨uid, nm, bd⟩])
    | none => (.raised "KeyError", ud, db)
  | none => (.next .addingBirthdayDate, ud, db)

lemma digitChar_inj :
    ∀ a, a < 10 → ∀ b, b < 10 → digitChar a = digitChar b → a = b := by
  decide

lemma daysInMonth_le (y m : Nat) : daysInMonth y m ≤ 31 := by
  unfold daysInMonth
  split
  · split <;> omega
  · split <;> omega

lemma strftimeMD_eq_iff (b d : Date) (hbm : b.month < 100) (hbd : b.day < 100)
    (hdm : d.month < 100) (hdd : d.day < 100) :
    strftimeMD b = strftimeMD d ↔ b.month = d.month ∧ b.day = d.day := by
  constructor
  · intro h
    have h' : [digitChar (b.month / 10), digitChar (b.month % 10), '-',
               digitChar (b.day / 10), digitChar (b.day % 10)]
            = [digitChar (d.month / 10), digitChar (d.month % 10), '-',
               digitChar (d.day / 10), digitChar (d.day % 10)] :=
      congrArg String.data h
    simp only [List.cons.injEq, and_true] at h'
    obtain ⟨h1, h2, _, h3, h4⟩ := h'
    have e1 := digitChar_inj _ (by omega) _ (by omega) h1
    have e2 := digitChar_inj _ (by omega) _ (by omega) h2
    have e3 := digitChar_inj _ (by omega) _ (by omega) h3
    have e4 := digitChar_inj _ (by omega) _ (by omega) h4
    omega
  · rintro ⟨h1, h2⟩
    simp [strftimeMD, h1, h2]

/-- Claim C1: a stored birthday is reported for a query date exactly when
its month and day equal the query date's month and day, independent of the
birthday's year; and a February 29 birthday never matches a date of a
non-leap year.  The match predicate is the one `strftime("%m-%d")`
comparison shared by the today view, the week view, the morning reminder,
the midnight reminder and the 30-day lookahead. -/
theorem claim_c1 (b d : Date) (hb : validDate b) (hd : validDate d) :
    (birthdayMatches b d = true ↔ b.month = d.month ∧ b.day = d.day)
    ∧ (∀ y, birthdayMatches ⟨y, b.month, b.day⟩ d = birthdayMatches b d)
    ∧ (b.month = 2 → b.day = 29 → isLeap d.year = false →
        birthdayMatches b d = false)
    ∧ (∀ (r : BirthdayRow) (db : List BirthdayRow), r.birth_date = b →
        (r ∈ birthdaysOn db d ↔ r ∈ db ∧ (b.month = d.month ∧ b.day = d.day))) := by
  obtain ⟨hb1, hb2, hb3, hb4⟩ := hb
  obtain ⟨hd1, hd2, hd3, hd4⟩ := hd
  have hble := daysInMonth_le b.year b.month
  have hdle := daysInMonth_le d.year d.month
  have hiff : birthdayMatches b d = true ↔ b.month = d.month ∧ b.day = d.day := by
    rw [birthdayMatches, decide_eq_true_iff]
    exact strftimeMD_eq_iff b d (by omega) (by omega) (by omega) (by omega)
  refine ⟨hiff, fun y => rfl, ?_, ?_⟩
  · intro hm2 hd29 hleap
    cases hB : birthdayMatches b d with
    | false => rfl
    | true =>
      exfalso
      obtain ⟨hmm, hdd'⟩ := hiff.mp hB
      rw [← hmm, hm2] at hd4
      rw [← hdd', hd29] at hd4
      simp [daysInMonth, hleap] at hd4
  · intro r db hr
    simp [birthdaysOn, List.mem_filter, hr, hiff]

/-- Witness for claim C1 at the concrete pair (1995-03-15, 2030-03-15). -/
theorem claim_c1_witness :
    validDate ⟨1995, 3, 15⟩ ∧ validDate ⟨2030, 3, 15⟩ ∧
    birthdayMatches ⟨1995, 3, 15⟩ ⟨2030, 3, 15⟩ = true :=
  ⟨by decide, by decide,
   (claim_c1 ⟨1995, 3, 15⟩ ⟨2030, 3, 15⟩ (by decide) (by decide)).1.mpr
     (by decide)⟩

/-- Claim C2: the age computed in `save_birthday` equals the spec's
`computeAge` formula for all inputs, and the plain year-difference age
rendered by the views (today, morning, midnight, lookahead) also equals
the spec's formula whenever the birthday passed the month/day match that
put it into the view. -/
theorem claim_c2 :
    (∀ b today : Date, saveBirthdayAge b today = specAge b today)
    ∧ (∀ b d : Date, validDate b → validDate d → birthdayMatches b d = true →
        viewAge b d = specAge b d) := by
  constructor
  · intro b today
    rfl
  · intro b d hb hd hm
    obtain ⟨hb1, hb2, hb3, hb4⟩ := hb
    obtain ⟨hd1, hd2, hd3, hd4⟩ := hd
    have hble := daysInMonth_le b.year b.month
    have hdle := daysInMonth_le d.year d.month
    rw [birthdayMatches, decide_eq_true_iff] at hm
    obtain ⟨h1, h2⟩ :=
      (strftimeMD_eq_iff b d (by omega) (by omega) (by omega) (by omega)).mp hm
    simp [viewAge, specAge, pyPairLt, h1, h2]

/-- Witness for claim C2: Mia, born 1995-03-15, viewed on 2030-03-15. -/
theorem claim_c2_witness :
    birthdayMatches ⟨1995, 3, 15⟩ ⟨2030, 3, 15⟩ = true ∧
    viewAge ⟨1995, 3, 15⟩ ⟨2030, 3, 15⟩ = specAge ⟨1995, 3, 15⟩ ⟨2030, 3, 15⟩ :=
  ⟨by decide, claim_c2.2 _ _ (by decide) (by decide) (by decide)⟩

/-- Claim C3 is refuted by the code: the birthday query of the today view
(and of every other view and reminder) has no `user_id` condition, so the
today view assembled for user 1 contains a birthday row owned by user 2. -/
theorem claim_c3_leak :
    ∃ r ∈ (todayView 1 []
        [⟨1, "Ann", ⟨1990, 3, 15⟩⟩, ⟨2, "Mia", ⟨1995, 3, 15⟩⟩]
        ⟨2030, 3, 15⟩).2, r.user_id ≠ 1 :=
  ⟨⟨2, "Mia", ⟨1995, 3, 15⟩⟩, by decide, by decide⟩

lemma morningSelect_eq_filter_map (users : List UserRow) (now : Time) :
    morningSelect users now =
      (users.filter (fun u =>
        decide (u.morning_time = strftimeHM now ∧ u.morning_time ≠ "disabled"))).map
        (fun u => u.user_id) := by
  induction users with
  | nil => rfl
  | cons u us ih =>
    simp only [morningSelect, List.filter_cons]
    by_cases h : u.morning_time = strftimeHM now ∧ u.morning_time ≠ "disabled"
    · rw [if_pos h, decide_eq_true h]
      simp [ih]
    · rw [if_neg h, decide_eq_false h]
      simp [ih]

/-- Claim C4: a user is selected by the morning tick exactly when its
stored `morning_time` equals the current wall-clock `HH:MM` string and is
not the `disabled` sentinel; at 08:00, users set to `08:00`, `08:01` and
`disabled` give exactly the first one. -/
theorem claim_c4 :
    (∀ (users : List UserRow) (now : Time) (uid : Nat),
      uid ∈ morningSelect users now ↔
        ∃ u ∈ users, u.user_id = uid ∧ u.morning_time = strftimeHM now ∧
          u.morning_time ≠ "disabled")
    ∧ morningSelect
        [⟨1, "A", none, "Europe/Kiev", "08:00"⟩,
         ⟨2, "B", none, "Europe/Kiev", "08:01"⟩,
         ⟨3, "C", none, "Europe/Kiev", "disabled"⟩] ⟨8, 0, 0⟩ = [1] := by
  constructor
  · intro users now uid
    rw [morningSelect_eq_filter_map]
    constructor
    · intro h
      obtain ⟨u, hu, hid⟩ := List.mem_map.mp h
      obtain ⟨hmem, hcond⟩ := List.mem_filter.mp hu
      obtain ⟨hmt, hdis⟩ := of_decide_eq_true hcond
      exact ⟨u, hmem, hid, hmt, hdis⟩
    · rintro ⟨u, hmem, hid, hmt, hdis⟩
      exact List.mem_map.mpr
        ⟨u, List.mem_filter.mpr ⟨hmem, decide_eq_true ⟨hmt, hdis⟩⟩, hid⟩
  · decide

/-- Claim C5: the midnight tick body runs exactly when the wall-clock
time-of-day lies in the half-open interval from 00:00 (inclusive) to
00:05 (exclusive); in particular it fires at 00:00 and 00:04 and not at
00:05 or 23:59. -/
theorem claim_c5 :
    (∀ t : Time, t.second < 60 →
      (midnightGate t = true ↔ 3600 * t.hour + 60 * t.minute + t.second < 300))
    ∧ midnightGate ⟨0, 0, 0⟩ = true ∧ midnightGate ⟨0, 4, 59⟩ = true
    ∧ midnightGate ⟨0, 5, 0⟩ = false ∧ midnightGate ⟨23, 59, 0⟩ = false := by
  refine ⟨fun t hs => ?_, by decide, by decide, by decide, by decide⟩
  simp only [midnightGate, Bool.and_eq_true, decide_eq_true_iff]
  omega

/-- Witness for claim C5 at the concrete time 00:03:30. -/
theorem claim_c5_witness :
    (3600 * 0 + 60 * 3 + 30 < 300) ∧ midnightGate ⟨0, 3, 30⟩ = true :=
  ⟨by decide, (claim_c5.1 ⟨0, 3, 30⟩ (by decide)).mpr (by decide)⟩

/-- Claim C6: in the per-recipient send loop, a failing delivery is logged
and the loop continues, so the delivered recipients are exactly the
non-failing ones; in a batch of three where only recipient 2 fails,
recipients 1 and 3 are still delivered. -/
theorem claim_c6 :
    (∀ (rs : List Nat) (failing : Nat → Bool),
      (dispatchBatch rs failing).1 = rs.filter (fun r => !failing r)
      ∧ (dispatchBatch rs failing).2 = rs.filter failing)
    ∧ dispatchBatch [1, 2, 3] (fun r => decide (r = 2)) = ([1, 3], [2]) := by
  constructor
  · intro rs failing
    induction rs with
    | nil => exact ⟨rfl, rfl⟩
    | cons r rs ih =>
      cases hf : failing r <;>
        simp [dispatchBatch, hf, ih.1, ih.2, List.filter_cons]
  · decide

lemma mem_insertByTime (e a : EventRow) (l : List EventRow) :
    a ∈ insertByTime e l ↔ a = e ∨ a ∈ l := by
  induction l with
  | nil => simp [insertByTime]
  | cons x xs ih =>
    simp only [insertByTime]
    split
    · simp [List.mem_cons]
    · simp only [List.mem_cons, ih]
      tauto

lemma mem_sortEvents (a : EventRow) (l : List EventRow) :
    a ∈ sortEvents l ↔ a ∈ l := by
  induction l with
  | nil => simp [sortEvents]
  | cons x xs ih =>
    simp [sortEvents, mem_insertByTime, ih]

/-- Claim C7: an event appears in the today view exactly when it is owned
by the querying user and its full calendar date (year included) equals the
query date; the Dentist event of 2024-12-25 15:30 is returned on
2024-12-25, rendered as `15:30 - Dentist`, and not returned on
2024-12-26. -/
theorem claim_c7 :
    (∀ (uid : Nat) (events : List EventRow) (bdays : List BirthdayRow)
        (d : Date) (e : EventRow),
      e ∈ (todayView uid events bdays d).1 ↔
        e ∈ events ∧ e.user_id = uid ∧ e.event_date = d)
    ∧ (todayView 7 [⟨7, "Dentist", none, ⟨2024, 12, 25⟩, some ⟨15, 30, 0⟩⟩] []
        ⟨2024, 12, 25⟩).1
      = [⟨7, "Dentist", none, ⟨2024, 12, 25⟩, some ⟨15, 30, 0⟩⟩]
    ∧ formatEventLine ⟨7, "Dentist", none, ⟨2024, 12, 25⟩, some ⟨15, 30, 0⟩⟩
      = "15:30 - Dentist\n"
    ∧ (todayView 7 [⟨7, "Dentist", none, ⟨2024, 12, 25⟩, some ⟨15, 30, 0⟩⟩] []
        ⟨2024, 12, 26⟩).1 = [] := by
  refine ⟨?_, by decide, by decide, by decide⟩
  intro uid events bdays d e
  simp [todayView, eventsOn, mem_sortEvents, List.mem_filter,
    decide_eq_true_iff, and_assoc]

/-- Claim C8: a malformed date or time string during intake makes the
handler re-prompt and stay in its own stage, with the intake buffer and
the database unchanged (the `ValueError` from `strptime` is caught, so no
exception escapes and nothing is stored). -/
theorem claim_c8 :
    (∀ (text : String) (today : Date) (ud : UserData) (db : List EventRow),
      pyStrip (pyLower text) ≠ "сьогодні" →
      pyStrip (pyLower text) ≠ "завтра" →
      parseDMY (pyStrip (pyLower text)) = none →
      getEventDate text today ud db = (.next .addingEventDate, ud, db))
    ∧ (∀ (text : String) (ud : UserData) (db : List EventRow),
      pyStrip (pyLower text) ≠ "весь день" →
      parseHM (pyStrip (pyLower text)) = none →
      getEventTime text ud db = (.next .addingEventTime, ud, db))
    ∧ (∀ (text : String) (uid : Nat) (ud : UserData) (db : List BirthdayRow),
      parseDMY (pyStrip text) = none →
      saveBirthday text uid ud db = (.next .addingBirthdayDate, ud, db)) := by
  refine ⟨fun text today ud db h1 h2 h3 => ?_, fun text ud db h1 h2 => ?_,
    fun text uid ud db h1 => ?_⟩
  · rw [getEventDate, if_neg h1, if_neg h2, h3]
  · rw [getEventTime, if_neg h1, h2]
  · rw [saveBirthday, h1]

/-- Witness for claim C8 on the malformed inputs `hello` and
`31.02.2001` (February 31st fails date validation). -/
theorem claim_c8_witness :
    parseDMY (pyStrip (pyLower "hello")) = none ∧
    parseDMY (pyStrip "31.02.2001") = none ∧
    getEventDate "hello" ⟨2024, 1, 1⟩ emptyUserData [] =
      (.next .addingEventDate, emptyUserData, []) ∧
    getEventTime "hello" emptyUserData [] =
      (.next .addingEventTime, emptyUserData, []) ∧
    saveBirthday "31.02.2001" 7 emptyUserData [] =
      (.next .addingBirthdayDate, emptyUserData, []) :=
  ⟨by decide, by decide,
   claim_c8.1 "hello" ⟨2024, 1, 1⟩ emptyUserData [] (by decide) (by decide)
     (by decide),
   claim_c8.2.1 "hello" emptyUserData [] (by decide) (by decide),
   claim_c8.2.2 "31.02.2001" 7 emptyUserData [] (by decide)⟩

/-- Two user rows that agree on every column except `timezone`. -/
def eqExceptTimezone (u v : UserRow) : Prop :=
  u.user_id = v.user_id ∧ u.first_name = v.first_name ∧
  u.username = v.username ∧ u.morning_time = v.morning_time

lemma morningSelect_congr (now : Time) {us vs : List UserRow}
    (h : List.Forall₂ eqExceptTimezone us vs) :
    morningSelect us now = morningSelect vs now := by
  induction h with
  | nil => rfl
  | cons hr _ ih =>
    obtain ⟨hid, _, _, hm⟩ := hr
    simp only [morningSelect]
    rw [hm, hid, ih]

lemma mapIds_congr {us vs : List UserRow}
    (h : List.Forall₂ eqExceptTimezone us vs) :
    us.map (fun u => u.user_id) = vs.map (fun u => u.user_id) := by
  induction h with
  | nil => rfl
  | cons hr _ ih => simp [hr.1, ih]

/-- Claim C9: the stored timezone column never reaches the scheduling
arithmetic — two database states that differ only in the users' timezone
values yield identical morning-tick and midnight-tick selections and
notifications. -/
theorem claim_c9 (us vs : List UserRow)
    (h : List.Forall₂ eqExceptTimezone us vs) (events : List EventRow)
    (bdays : List BirthdayRow) (now : Time) (today : Date) :
    morningRun us events bdays now today = morningRun vs events bdays now today
    ∧ midnightRun us bdays now today = midnightRun vs bdays now today := by
  constructor
  · rw [morningRun, morningRun, morningSelect_congr now h]
  · rw [midnightRun, midnightRun, mapIds_congr h]

/-- Witness for claim C9: one user moved from Kyiv to New York time keeps
identical morning and midnight tick outputs. -/
theorem claim_c9_witness :
    morningRun [⟨1, "A", none, "Europe/Kiev", "08:00"⟩] []
        [⟨1, "Mia", ⟨1995, 5, 5⟩⟩] ⟨8, 0, 0⟩ ⟨2024, 5, 5⟩ =
      morningRun [⟨1, "A", none, "America/New_York", "08:00"⟩] []
        [⟨1, "Mia", ⟨1995, 5, 5⟩⟩] ⟨8, 0, 0⟩ ⟨2024, 5, 5⟩
    ∧ midnightRun [⟨1, "A", none, "Europe/Kiev", "08:00"⟩]
        [⟨1, "Mia", ⟨1995, 5, 5⟩⟩] ⟨0, 0, 0⟩ ⟨2024, 5, 5⟩ =
      midnightRun [⟨1, "A", none, "America/New_York", "08:00"⟩]
        [⟨1, "Mia", ⟨1995, 5, 5⟩⟩] ⟨0, 0, 0⟩ ⟨2024, 5, 5⟩ :=
  ⟨(claim_c9 _ _ (List.Forall₂.cons ⟨rfl, rfl, rfl, rfl⟩ List.Forall₂.nil)
      [] [⟨1, "Mia", ⟨1995, 5, 5⟩⟩] ⟨8, 0, 0⟩ ⟨2024, 5, 5⟩).1,
   (claim_c9 _ _ (List.Forall₂.cons ⟨rfl, rfl, rfl, rfl⟩ List.Forall₂.nil)
      [] [⟨1, "Mia", ⟨1995, 5, 5⟩⟩] ⟨0, 0, 0⟩ ⟨2024, 5, 5⟩).2⟩

/-- Claim C10 as stated is false for a timed event: with a buffered time
of 15:30 the parameter binding inside `cursor.execute` raises before the
INSERT, so the database stays empty and the `keyboard` NameError is never
reached — no event "remains persisted" at this input. -/
theorem claim_c10_counterexample :
    saveEvent "Checkup" 7
      ⟨some "Dentist", some ⟨2024, 12, 25⟩, some (some ⟨15, 30, 0⟩), none⟩ [] =
      (.raised "InterfaceError: no sqlite3 adapter for datetime.time",
       ⟨some "Dentist", some ⟨2024, 12, 25⟩, some (some ⟨15, 30, 0⟩), none⟩,
       [])
    ∧ saveEvent "Checkup" 7
        ⟨some "Dentist", some ⟨2024, 12, 25⟩, some (some ⟨15, 30, 0⟩), none⟩ [] ≠
      (.raised "NameError: name keyboard is not defined",
       ⟨some "Dentist", some ⟨2024, 12, 25⟩, some (some ⟨15, 30, 0⟩), none⟩,
       [⟨7, "Dentist", pyDescription "Checkup", ⟨2024, 12, 25⟩,
         some ⟨15, 30, 0⟩⟩]) := by
  exact ⟨by decide, by decide⟩

/-- Claim C10 (amended): with a complete intake buffer, `save_event` for
an all-day event appends the event row (the insert is committed first)
and the subsequent confirmation reply raises, because the name `keyboard`
is not among the locals ever assigned in the handler; for a timed event
the parameter binding raises before the insert and nothing is persisted.
In both cases the buffer is not cleared and the conversation is not
ended. -/
theorem claim_c10 (text : String) (uid : Nat) (nm : String) (ed : Date)
    (et : Option Time) (ud : UserData) (db : List EventRow)
    (h1 : ud.event_name = some nm) (h2 : ud.event_date = some ed)
    (h3 : ud.event_time = some et) :
    (et = none →
      saveEvent text uid ud db =
        (.raised "NameError: name keyboard is not defined", ud,
         db ++ [⟨uid, nm, pyDescription text, ed, none⟩]))
    ∧ (∀ t, et = some t →
      saveEvent text uid ud db =
        (.raised "InterfaceError: no sqlite3 adapter for datetime.time",
         ud, db))
    ∧ saveEventLocals.contains "keyboard" = false := by
  have hk : saveEventLocals.contains "keyboard" = false := by decide
  refine ⟨?_, ?_, hk⟩
  · intro hn
    subst hn
    rw [saveEvent, h1, h2, h3]
    rw [hk]
    rfl
  · intro t ht
    subst ht
    rw [saveEvent, h1, h2, h3]

/-- Witness for claim C10 with a filled all-day buffer and an empty
events table. -/
theorem claim_c10_witness :
    saveEvent "Checkup" 7
      ⟨some "Dentist", some ⟨2024, 12, 25⟩, some none, none⟩ [] =
      (.raised "NameError: name keyboard is not defined",
       ⟨some "Dentist", some ⟨2024, 12, 25⟩, some none, none⟩,
       [⟨7, "Dentist", pyDescription "Checkup", ⟨2024, 12, 25⟩, none⟩])
    ∧ saveEventLocals.contains "keyboard" = false :=
  ⟨(claim_c10 "Checkup" 7 "Dentist" ⟨2024, 12, 25⟩ none
      ⟨some "Dentist", some ⟨2024, 12, 25⟩, some none, none⟩ []
      rfl rfl rfl).1 rfl,
   (claim_c10 "Checkup" 7 "Dentist" ⟨2024, 12, 25⟩ none
      ⟨some "Dentist", some ⟨2024, 12, 25⟩, some none, none⟩ []
      rfl rfl rfl).2.2⟩

end CatPlanner
